import Mathlib

/-!
# Verification of the SQLite → DynamoDB migration tool

Shallow embedding of the migration tool's core logic:

* `data_transformers.py`  — pure per-entity transformation functions,
* `dynamodb_manager.py`   — `batch_write_items` chunk/retry loop,
* `migration_state.py`    — persisted state ledger (`get_state`, `can_resume`, …),
* `migration_engine.py`   — table loop, per-entity cursor-batched migration,
  resume entry point, validator.

Source rows are modelled as structured records carrying exactly the columns the
queries select.  DynamoDB items are association lists `String × AttrVal`
mirroring the Python dicts (insertion order preserved).  Monetary source values
(SQLite `NUMERIC` read by the tool) are carried as their decimal literal
strings; `str(Decimal(str(x)))` round-trips those digits, so the serialization
of a single monetary value is modelled as the identity on that string.  The
float-vs-decimal provenance of the monetary pipelines is modelled separately
(`PyNumExpr` below), transcribing the exact operations the transformers apply.
-/

namespace Migration

/-- DynamoDB attribute values — the subset built by `data_transformers.py`. -/
inductive AttrVal where
  | S : String → AttrVal
  | N : String → AttrVal
  | BOOL : Bool → AttrVal
  | L : List AttrVal → AttrVal
  | M : List (String × AttrVal) → AttrVal
deriving Repr

/-- A DynamoDB item: the Python dict, as an insertion-ordered association list. -/
abbrev Item := List (String × AttrVal)

/-- First binding of a key in an item (Python dict lookup). -/
def getAttr (it : Item) (k : String) : Option AttrVal :=
  (it.find? (fun kv => kv.fst == k)).map (·.snd)

/-- Whether the item has an attribute under key `k`. -/
def hasKey (it : Item) (k : String) : Bool :=
  (getAttr it k).isSome

/-- The `S` payload stored under key `k`, when present. -/
def getS (it : Item) (k : String) : Option String :=
  match getAttr it k with
  | some (.S s) => some s
  | _ => none

/-- The `N` payload stored under key `k`, when present. -/
def getN (it : Item) (k : String) : Option String :=
  match getAttr it k with
  | some (.N s) => some s
  | _ => none

/-- The `BOOL` payload stored under key `k`, when present. -/
def getBOOL (it : Item) (k : String) : Option Bool :=
  match getAttr it k with
  | some (.BOOL b) => some b
  | _ => none

/-- `true` when the attribute value is a DynamoDB `BOOL`. -/
def isBoolVal : AttrVal → Bool
  | .BOOL _ => true
  | _ => false

/-- Append those optional attributes that are present, in order — the
`if row.get(field): item[key] = …` sequences of the transformers. -/
def appendOpts (base : Item) (opts : List (String × Option AttrVal)) : Item :=
  base ++ opts.filterMap (fun kv => kv.snd.map (fun v => (kv.fst, v)))

end Migration

namespace Migration

/-! ## Source rows (as produced by the engine's SQL queries) -/

/-- One row of the artist query of `_migrate_artists`
(`ArtistId, Name, AlbumCount, TrackCount`). -/
structure ArtistRow where
  artistId : Nat
  name : String
  albumCount : Nat
  trackCount : Nat
deriving Repr, DecidableEq

/-- One row of the album query of `_migrate_albums`. -/
structure AlbumRow where
  albumId : Nat
  title : String
  artistId : Nat
  artistName : String
  trackCount : Nat
deriving Repr, DecidableEq

/-- One row of the track query of `_migrate_tracks`.  Optional columns come
from `LEFT JOIN`s / nullable columns; monetary `UnitPrice` is its decimal
literal. -/
structure TrackRow where
  trackId : Nat
  name : String
  albumId : Nat
  mediaTypeId : Option Nat
  genreId : Option Nat
  composer : Option String
  milliseconds : Option Nat
  bytes : Option Nat
  unitPrice : String
  albumTitle : String
  artistId : Nat
  artistName : String
  genreName : Option String
  mediaTypeName : Option String
deriving Repr, DecidableEq

/-- One invoice-line record grouped under an order by
`_migrate_customers_with_orders`. -/
structure LineItem where
  invoiceLineId : Nat
  trackId : Nat
  unitPrice : String
  quantity : Nat
  trackName : Option String
  artistName : Option String
  albumTitle : Option String
deriving Repr, DecidableEq

/-- The invoice columns of one order (`invoice_data`). -/
structure InvoiceData where
  invoiceId : Nat
  invoiceDate : String
  total : String
  billingAddress : Option String
  billingCity : Option String
  billingState : Option String
  billingCountry : Option String
  billingPostalCode : Option String
deriving Repr, DecidableEq

/-- One order grouped by `_migrate_customers_with_orders`:
`{'invoice_data': …, 'line_items': […]}`. -/
structure OrderData where
  invoice_data : InvoiceData
  line_items : List LineItem
deriving Repr, DecidableEq

/-- One track row grouped under a playlist by `_migrate_playlist_data`. -/
structure PlaylistTrackRow where
  trackId : Nat
  trackName : String
  milliseconds : Option Nat
  unitPrice : Option String
  artistName : Option String
  albumTitle : Option String
deriving Repr, DecidableEq

/-- One playlist with its grouped tracks (`playlists_data[playlist_id]`). -/
structure PlaylistData where
  playlistId : Nat
  playlistName : String
  tracks : List PlaylistTrackRow
deriving Repr, DecidableEq

/-! ## Transformers (`data_transformers.py`) -/

/-- `DataTransformers.transform_artist` (lines 13–25). -/
def transform_artist (a : ArtistRow) : Item :=
  [("PK", .S ("ARTIST#" ++ toString a.artistId)),
   ("SK", .S "METADATA"),
   ("EntityType", .S "Artist"),
   ("ArtistId", .N (toString a.artistId)),
   ("Name", .S a.name),
   ("AlbumCount", .N (toString a.albumCount)),
   ("TrackCount", .N (toString a.trackCount)),
   ("GSI1PK", .S ("ARTIST_NAME#" ++ a.name)),
   ("GSI1SK", .S ("ARTIST#" ++ toString a.artistId))]

/-- `DataTransformers.transform_album` (lines 27–40). -/
def transform_album (al : AlbumRow) : Item :=
  [("PK", .S ("ARTIST#" ++ toString al.artistId)),
   ("SK", .S ("ALBUM#" ++ toString al.albumId)),
   ("EntityType", .S "Album"),
   ("AlbumId", .N (toString al.albumId)),
   ("Title", .S al.title),
   ("ArtistId", .N (toString al.artistId)),
   ("ArtistName", .S al.artistName),
   ("TrackCount", .N (toString al.trackCount)),
   ("GSI1PK", .S ("ALBUM_TITLE#" ++ al.title)),
   ("GSI1SK", .S ("ALBUM#" ++ toString al.albumId))]

/-- `DataTransformers.transform_track` (lines 42–80).  Optional fields are
appended in source order; Python truthiness drops a present-but-zero numeric
(`if track_data.get('Milliseconds'):`), modelled by the `≠ 0` guards. -/
def transform_track (t : TrackRow) : Item :=
  appendOpts
    [("PK", .S ("ALBUM#" ++ toString t.albumId)),
     ("SK", .S ("TRACK#" ++ toString t.trackId)),
     ("EntityType", .S "Track"),
     ("TrackId", .N (toString t.trackId)),
     ("Name", .S t.name),
     ("AlbumId", .N (toString t.albumId)),
     ("AlbumTitle", .S t.albumTitle),
     ("ArtistId", .N (toString t.artistId)),
     ("ArtistName", .S t.artistName),
     ("UnitPrice", .N t.unitPrice),
     ("GSI1PK", .S ("TRACK_NAME#" ++ t.name)),
     ("GSI1SK", .S ("TRACK#" ++ toString t.trackId))]
    [("Composer", t.composer.map .S),
     ("Milliseconds", (t.milliseconds.filter (· ≠ 0)).map (fun n => .N (toString n))),
     ("Bytes", (t.bytes.filter (· ≠ 0)).map (fun n => .N (toString n))),
     ("GenreId", (t.genreId.filter (· ≠ 0)).map (fun n => .N (toString n))),
     ("GenreName", (if (t.genreId.filter (· ≠ 0)).isSome then t.genreName.map .S else none)),
     ("GSI2PK", (if (t.genreId.filter (· ≠ 0)).isSome then
        t.genreName.map (fun g => .S ("GENRE#" ++ g)) else none)),
     ("MediaTypeId", (t.mediaTypeId.filter (· ≠ 0)).map (fun n => .N (toString n))),
     ("MediaTypeName", (if (t.mediaTypeId.filter (· ≠ 0)).isSome then
        t.mediaTypeName.map .S else none))]

/-- The `M` record built for one embedded line item
(`transform_customer_order`, lines 167–186). -/
def lineItemAttr (li : LineItem) : AttrVal :=
  .M (appendOpts
    [("InvoiceLineId", .N (toString li.invoiceLineId)),
     ("TrackId", .N (toString li.trackId)),
     ("UnitPrice", .N li.unitPrice),
     ("Quantity", .N (toString li.quantity))]
    [("TrackName", li.trackName.map .S),
     ("ArtistName", li.artistName.map .S),
     ("AlbumTitle", li.albumTitle.map .S)])

/-- The `item` dict of `transform_customer_order` before the conditional
line-item embedding (lines 138–162): mandatory fields then the optional
billing fields. -/
def orderBase (customer_id : Nat) (order_data : OrderData) : Item :=
  let inv := order_data.invoice_data
  appendOpts
    [("PK", .S ("CUSTOMER#" ++ toString customer_id)),
     ("SK", .S ("ORDER#" ++ inv.invoiceDate ++ "#" ++ toString inv.invoiceId)),
     ("EntityType", .S "Order"),
     ("InvoiceId", .N (toString inv.invoiceId)),
     ("InvoiceDate", .S inv.invoiceDate),
     ("Total", .N inv.total),
     ("LineItemCount", .N (toString order_data.line_items.length))]
    [("BillingAddress", inv.billingAddress.map .S),
     ("BillingCity", inv.billingCity.map .S),
     ("BillingState", inv.billingState.map .S),
     ("BillingCountry", inv.billingCountry.map .S),
     ("BillingPostalCode", inv.billingPostalCode.map .S)]

/-- `DataTransformers.transform_customer_order` (lines 133–190).  The line-item
list is embedded only when `len(line_items) <= 50`; the `else` branch adds no
attribute at all (contrast `transform_playlist`). -/
def transform_customer_order (customer_id : Nat) (order_data : OrderData) : Item :=
  if order_data.line_items.length ≤ 50 then
    orderBase customer_id order_data
      ++ [("LineItems", .L (order_data.line_items.map lineItemAttr))]
  else
    orderBase customer_id order_data

/-- The `M` record built for one embedded playlist track
(`transform_playlist`, lines 216–236). -/
def playlistTrackAttr (t : PlaylistTrackRow) : AttrVal :=
  .M (appendOpts
    [("TrackId", .N (toString t.trackId)),
     ("Name", .S t.trackName)]
    [("Duration", (t.milliseconds.filter (· ≠ 0)).map (fun n => .N (toString n))),
     ("UnitPrice", t.unitPrice.map .N),
     ("ArtistName", t.artistName.map .S),
     ("AlbumTitle", t.albumTitle.map .S)])

/-- The `item` dict of `transform_playlist` before the conditional track
embedding (lines 197–211), `TotalDuration` computed as
`sum(track.get('Milliseconds', 0) or 0 for track in tracks)`. -/
def playlistBase (p : PlaylistData) : Item :=
  [("PK", .S ("PLAYLIST#" ++ toString p.playlistId)),
   ("SK", .S "METADATA"),
   ("EntityType", .S "Playlist"),
   ("PlaylistId", .N (toString p.playlistId)),
   ("Name", .S p.playlistName),
   ("TrackCount", .N (toString p.tracks.length)),
   ("TotalDuration", .N (toString (p.tracks.map (fun t => t.milliseconds.getD 0)).sum))]

/-- `DataTransformers.transform_playlist` (lines 192–243).  Tracks are embedded
when `len(tracks) <= 100`; otherwise the item instead carries
`LargePlaylist = BOOL true`. -/
def transform_playlist (p : PlaylistData) : Item :=
  if p.tracks.length ≤ 100 then
    playlistBase p ++ [("Tracks", .L (p.tracks.map playlistTrackAttr))]
  else
    playlistBase p ++ [("LargePlaylist", .BOOL true)]

/-! ## Persisted state (`migration_state.py`) -/

/-- Per-entity progress record `{'total': …, 'migrated': …, 'last_id': …}`. -/
structure EntityProgress where
  total : Nat
  migrated : Nat
  last_id : Option Nat
deriving Repr, DecidableEq

/-- Per-table state inside `default_state['tables'][…]`.  Statuses are the
literal strings the source uses.  Tables without an `'entities'` key carry
`none`. -/
structure TableState where
  status : String
  total_records : Nat
  records_migrated : Nat
  last_processed_id : Option Nat
  start_time : Option String
  end_time : Option String
  entities : Option (List (String × EntityProgress))
deriving Repr, DecidableEq

/-- An entry of the `errors` list (`add_error` / `fail_migration`); the
`table` key is present only when a table name was supplied. -/
structure ErrorEntry where
  timestamp : String
  message : String
  table : Option String
deriving Repr, DecidableEq

/-- The whole persisted `MigrationState` document. -/
structure MState where
  status : String
  start_time : Option String
  end_time : Option String
  last_update : Option String
  current_phase : Option String
  tables : List (String × TableState)
  errors : List ErrorEntry
deriving Repr, DecidableEq

/-- A fresh `TableState` with no `'entities'` key (`MigrationState.default_state`). -/
def freshTable : TableState :=
  { status := "not_started", total_records := 0, records_migrated := 0,
    last_processed_id := none, start_time := none, end_time := none,
    entities := none }

/-- A fresh `EntityProgress` (`{'total': 0, 'migrated': 0, 'last_id': None}`). -/
def freshEntity : EntityProgress := { total := 0, migrated := 0, last_id := none }

/-- `MigrationState.default_state` (`migration_state.py`, lines 17–68). -/
def default_state : MState :=
  { status := "not_started",
    start_time := none, end_time := none, last_update := none,
    current_phase := none,
    tables :=
      [("MusicCatalog",
          { freshTable with entities := some [("artists", freshEntity),
              ("albums", freshEntity), ("tracks", freshEntity)] }),
       ("CustomerOrders",
          { freshTable with entities := some [("customers", freshEntity),
              ("orders", freshEntity)] }),
       ("Playlists", freshTable),
       ("EmployeeManagement", freshTable)],
    errors := [] }

/-- What the state file on disk can look like when `get_state` reads it:
missing, unparseable/unreadable (`json.JSONDecodeError` / `IOError`), or a
well-formed document. -/
inductive FileContent where
  | missing : FileContent
  | malformed : FileContent
  | valid : MState → FileContent
deriving Repr

/-- `MigrationState.get_state` (lines 76–85): a missing file and a file whose
read raised `JSONDecodeError`/`IOError` both yield a copy of the default
state; only a well-formed document is returned as-is.  The function is total:
the two failure exception types are caught, so the caller never sees a raise. -/
def get_state : FileContent → MState
  | .missing => default_state
  | .malformed => default_state
  | .valid s => s

/-- `MigrationState.can_resume` (lines 191–194). -/
def can_resume (f : FileContent) : Bool :=
  (get_state f).status == "in_progress"

/-- `MigrationState.is_table_completed` (lines 181–184). -/
def is_table_completed (f : FileContent) (table_name : String) : Bool :=
  match ((get_state f).tables.find? (fun kv => kv.fst == table_name)) with
  | some kv => kv.snd.status == "completed"
  | none => false

/-- Outcome of `MigrationEngine.resume_migration` (lines 135–156),
distinguishing the three exits of the source. -/
inductive ResumeOutcome where
  | noResume      -- `can_resume()` false: "No migration to resume", return False
  | allComplete   -- no incomplete table: `complete_migration()`, return True
  | rerun         -- falls through to `run_migration(specific_table=None)`
deriving Repr, DecidableEq

/-- `MigrationEngine.resume_migration` (lines 135–156): refuses unless the
persisted status is `in_progress`; otherwise either completes immediately or
re-enters `run_migration`. -/
def resume_migration (f : FileContent) : ResumeOutcome :=
  if !(can_resume f) then
    .noResume
  else
    let state := get_state f
    let incomplete := state.tables.filter
      (fun kv => kv.snd.status == "not_started" || kv.snd.status == "in_progress")
    if incomplete.isEmpty then .allComplete else .rerun

/-! ## `DynamoDBManager.batch_write_items` (`dynamodb_manager.py`, lines 184–236)

The store's behaviour is abstracted as an oracle mapping (attempt number,
request) to the `UnprocessedItems` list it reports for that attempt (empty =
everything processed).  The per-chunk `while retries < max_retries` loop is
embedded with explicit fuel `max_retries - retries`, which decreases exactly
when the loop's condition holds. -/

/-- Observable outcome of the retry loop for one chunk: whether it exited via
`break` (success), every request actually sent to the store, and every
`time.sleep(2 ** retries)` performed. -/
structure ChunkResult where
  ok : Bool
  requests : List (List Item)
  sleeps : List Nat
deriving Repr

/-- The `while retries < max_retries` loop body for one chunk (lines 203–217):
attempt the write, and if the store reports unprocessed items, make *them* the
next request, bump `retries`, sleep `2 ** retries`, and continue; exit with
success on an empty report.  `fuel = max_retries - retries`; fuel 0 is the
loop condition failing, after which line 234 raises. -/
def writeChunkGo (oracle : Nat → List Item → List Item) :
    Nat → Nat → List Item → ChunkResult
  | 0, _, _ => { ok := false, requests := [], sleeps := [] }
  | fuel + 1, retries, request_items =>
    let unprocessed := oracle retries request_items
    if unprocessed.isEmpty then
      { ok := true, requests := [request_items], sleeps := [] }
    else
      let r := writeChunkGo oracle fuel (retries + 1) unprocessed
      { ok := r.ok, requests := request_items :: r.requests,
        sleeps := 2 ^ (retries + 1) :: r.sleeps }

/-- The retry loop for one chunk starting at `retries = 0`. -/
def writeChunk (oracle : Nat → List Item → List Item) (max_retries : Nat)
    (chunk : List Item) : ChunkResult :=
  writeChunkGo oracle max_retries 0 chunk

/-- `items[i:i+batch_size]` chunking of the outer `for` loop (line 191). -/
def chunksOf (n : Nat) : List α → List (List α)
  | [] => []
  | a :: l =>
    if h : n = 0 then []
    else ((a :: l).take n) :: chunksOf n ((a :: l).drop n)
  termination_by l => l.length
  decreasing_by
    simp only [List.length_drop, List.length_cons]
    exact Nat.sub_lt (Nat.succ_pos _) (Nat.pos_of_ne_zero h)

/-- Walks the chunks in order; a chunk whose retry loop exhausts its ceiling
aborts the whole call with the line-234 exception message. -/
def writeAllChunks (oracle : Nat → Nat → List Item → List Item)
    (max_retries : Nat) : Nat → List (List Item) → Except String (List ChunkResult)
  | _, [] => .ok []
  | ci, c :: cs =>
    let r := writeChunk (oracle ci) max_retries c
    if r.ok then
      (writeAllChunks oracle max_retries (ci + 1) cs).map (r :: ·)
    else
      .error "Max retries exceeded for batch write"

/-- `DynamoDBManager.batch_write_items` (lines 184–236): empty input returns
immediately (line 186–187); otherwise the items are split into chunks of 25
and written sequentially.  The oracle takes the chunk index first.  The
returned list records, per chunk, what was sent and slept. -/
def batch_write_items (oracle : Nat → Nat → List Item → List Item)
    (items : List Item) (max_retries : Nat) : Except String (List ChunkResult) :=
  if items.isEmpty then .ok []
  else writeAllChunks oracle max_retries 0 (chunksOf 25 items)

/-! ## Source queries of `migration_engine.py`

`ORDER BY <id>` is modelled by insertion sort on the id; a `WHERE id > c`
clause by a filter.  The cursor interpolated into the query text is guarded by
Python truthiness (`if last_processed_id:`), so a cursor of `None` — and the
degenerate `0` — leaves the query unrestricted. -/

/-- Insert into a list sorted by `key`. -/
def insertByKey (key : α → Nat) (a : α) : List α → List α
  | [] => [a]
  | b :: l => if key a ≤ key b then a :: b :: l else b :: insertByKey key a l

/-- Insertion sort by `key` (ascending), modelling `ORDER BY`. -/
def sortByKey (key : α → Nat) : List α → List α
  | [] => []
  | a :: l => insertByKey key a (sortByKey key l)

/-- `WHERE id > cursor` restriction plus `ORDER BY id`, shared shape of the
three MusicCatalog entity queries. -/
def cursorQuery (key : α → Nat) (rows : List α) (last_processed_id : Option Nat) :
    List α :=
  let filtered := match last_processed_id with
    | some c => if c ≠ 0 then rows.filter (fun r => decide (c < key r)) else rows
    | none => rows
  sortByKey key filtered

/-- The artist query of `_migrate_artists` (lines 249–261): optional
`WHERE a.ArtistId > cursor`, `ORDER BY a.ArtistId`. -/
def artistsQuery (rows : List ArtistRow) (last_processed_id : Option Nat) :
    List ArtistRow :=
  cursorQuery (·.artistId) rows last_processed_id

/-- The album query of `_migrate_albums` (lines 302–314): optional
`WHERE al.AlbumId > cursor`, `ORDER BY al.AlbumId`. -/
def albumsQuery (rows : List AlbumRow) (last_processed_id : Option Nat) :
    List AlbumRow :=
  cursorQuery (·.albumId) rows last_processed_id

/-- The track query of `_migrate_tracks` (lines 355–370): optional
`WHERE t.TrackId > cursor`, `ORDER BY t.TrackId`. -/
def tracksQuery (rows : List TrackRow) (last_processed_id : Option Nat) :
    List TrackRow :=
  cursorQuery (·.trackId) rows last_processed_id

/-! ## `_migrate_artists` (lines 247–298)

The loop accumulates transformed items, flushes once `batch_size` is reached,
and after each flush persists `migrated := processed_count` and a new cursor:
the id of the row that completed the batch mid-loop (line 281), or — for the
trailing flush — the `'N'` string stored in the last item, read back as a
number (line 294).  Returned observables: the final entity record, the item
batches written, and each persisted snapshot, in order. -/

/-- Decimal value of a digit list (accumulator form). -/
def digitsVal : List Char → Nat → Option Nat
  | [], acc => some acc
  | c :: cs, acc =>
    if c.isDigit then digitsVal cs (acc * 10 + (c.toNat - '0'.toNat)) else none

/-- Numeric reading of a decimal digit string — the value a stored `'N'`
string denotes when interpolated back into the resume query text. -/
def strToNat? (s : String) : Option Nat :=
  match s.data with
  | [] => none
  | cs => digitsVal cs 0

/-- `batch_items[-1]['ArtistId']['N']` of the trailing flush, as the numeric
cursor value it acts as in the next run's query text. -/
def itemArtistIdN (it : Item) : Option Nat :=
  (getN it "ArtistId").bind strToNat?

/-- One `_migrate_artists` pass over the already-queried rows.  Arguments
mirror the loop state: pending `batch_items`, `processed_count`, and the
current persisted entity record. -/
def artistLoop (batch_size : Nat) :
    List ArtistRow → List Item → Nat → EntityProgress →
    EntityProgress × List (List Item) × List EntityProgress
  | [], batch_items, processed_count, st =>
    match batch_items with
    | [] => (st, [], [])
    | _ :: _ =>
      let processed_count := processed_count + batch_items.length
      let st := { st with migrated := processed_count,
                          last_id := (batch_items.getLast?).bind itemArtistIdN }
      (st, [batch_items], [st])
  | row :: rest, batch_items, processed_count, st =>
    let batch_items := batch_items ++ [transform_artist row]
    if batch_size ≤ batch_items.length then
      let processed_count := processed_count + batch_items.length
      let st := { st with migrated := processed_count, last_id := some row.artistId }
      let r := artistLoop batch_size rest [] processed_count st
      (r.fst, batch_items :: r.snd.fst, st :: r.snd.snd)
    else
      artistLoop batch_size rest batch_items processed_count st

/-- `MigrationEngine._migrate_artists`: query from the persisted cursor, then
run the batching loop. -/
def migrate_artists (batch_size : Nat) (rows : List ArtistRow)
    (st : EntityProgress) : EntityProgress × List (List Item) × List EntityProgress :=
  artistLoop batch_size (artistsQuery rows st.last_id) [] 0 st

/-! ## Customers, playlists, employees

`_migrate_customers_with_orders` (lines 424–507) and `_migrate_playlist_data`
(lines 519–573) group their join rows by customer/playlist id; the grouped
records are modelled directly.  Neither query carries a `WHERE` clause: the
persisted cursor is never consulted.  Optional text columns are `none` exactly
when the Python value is falsy (`None` or `''`), matching the
`if row.get(…):` guards. -/

/-- One customer as grouped by `_migrate_customers_with_orders`: the profile
columns of its first join row plus its grouped orders. -/
structure CustomerSrc where
  customerId : Nat
  firstName : String
  lastName : String
  email : String
  country : String
  city : String
  company : Option String
  address : Option String
  state : Option String
  postalCode : Option String
  phone : Option String
  fax : Option String
  supportRepId : Option Nat
  repFirstName : Option String
  repLastName : Option String
  orders : List OrderData
deriving Repr, DecidableEq

/-- `DataTransformers.transform_customer_profile` (lines 82–131).  The
`TotalSpent` number is `str(Decimal(str(sum(float(Total) …))))`: the binary
floating-point summation is abstracted as the `pyFloatSum` parameter over the
order totals (its provenance is analysed separately by `PyNumExpr`). -/
def transform_customer_profile (pyFloatSum : List String → String)
    (c : CustomerSrc) : Item :=
  appendOpts
    [("PK", .S ("CUSTOMER#" ++ toString c.customerId)),
     ("SK", .S "PROFILE"),
     ("EntityType", .S "CustomerProfile"),
     ("CustomerId", .N (toString c.customerId)),
     ("FirstName", .S c.firstName),
     ("LastName", .S c.lastName),
     ("Email", .S c.email),
     ("Country", .S c.country),
     ("City", .S c.city),
     ("TotalOrders", .N (toString c.orders.length)),
     ("GSI1PK", .S ("EMAIL#" ++ c.email)),
     ("GSI1SK", .S ("CUSTOMER#" ++ toString c.customerId))]
    [("Company", c.company.map .S),
     ("Address", c.address.map .S),
     ("State", c.state.map .S),
     ("PostalCode", c.postalCode.map .S),
     ("Phone", c.phone.map .S),
     ("Fax", c.fax.map .S),
     ("SupportRepId", (c.supportRepId.filter (· ≠ 0)).map (fun n => .N (toString n))),
     ("SupportRepName",
       (if (c.supportRepId.filter (· ≠ 0)).isSome then
          match c.repFirstName, c.repLastName with
          | some f, some l => some (.S (f ++ " " ++ l))
          | _, _ => none
        else none))]
  ++ [("TotalSpent", .N (pyFloatSum (c.orders.map (·.invoice_data.total))))]

/-- The customer grouping of lines 444–465 consumes the join rows in query
order (`ORDER BY c.CustomerId, …`); the dict of grouped customers therefore
iterates in ascending `CustomerId`.  No `WHERE` clause restricts the query
(lines 426–442) — the persisted `CustomerOrders` cursor is never consulted. -/
def customersQuery (rows : List CustomerSrc) : List CustomerSrc :=
  sortByKey (·.customerId) rows

/-- The items written per customer by the loop of lines 471–483: the profile
item followed by one item per order. -/
def customerItems (pyFloatSum : List String → String) (c : CustomerSrc) : List Item :=
  transform_customer_profile pyFloatSum c
    :: c.orders.map (transform_customer_order c.customerId)

/-- Net items written by `_migrate_customers_with_orders` when every batch
write succeeds: the batching loop (lines 468–507) flushes exactly these, in
this order. -/
def migrate_customers_with_orders (pyFloatSum : List String → String)
    (rows : List CustomerSrc) : List Item :=
  (customersQuery rows).flatMap (customerItems pyFloatSum)

/-- The playlist grouping of lines 536–546 consumes the join rows in query
order; its `ORDER BY p.PlaylistId` is the sort.  No `WHERE` clause restricts
the query (lines 521–531). -/
def playlistsQuery (rows : List PlaylistData) : List PlaylistData :=
  sortByKey (·.playlistId) rows

/-- Net items written by `_migrate_playlist_data` (lines 548–573) when every
batch write succeeds. -/
def migrate_playlist_data (rows : List PlaylistData) : List Item :=
  (playlistsQuery rows).map transform_playlist

/-- `MigrationEngine._migrate_playlists` (lines 509–517): receives the state
manager (`f`), seeds the table total, and runs `_migrate_playlist_data` —
which never reads the persisted cursor, whatever `f` holds. -/
def migrate_playlists (f : FileContent) (rows : List PlaylistData) : List Item :=
  let _ := get_state f
  migrate_playlist_data rows

/-- One row of the employee query of `_migrate_employee_data` (lines 587–598). -/
structure EmployeeRow where
  employeeId : Nat
  lastName : String
  firstName : String
  title : String
  reportsTo : Option Nat
  birthDate : Option String
  hireDate : Option String
  address : Option String
  city : Option String
  state : Option String
  country : Option String
  postalCode : Option String
  phone : Option String
  fax : Option String
  email : Option String
  managerFirstName : Option String
  managerLastName : Option String
  customerCount : Nat
deriving Repr, DecidableEq

/-- `DataTransformers.transform_employee` (lines 245–294). -/
def transform_employee (e : EmployeeRow) : Item :=
  appendOpts
    [("PK", .S ("EMPLOYEE#" ++ toString e.employeeId)),
     ("SK", .S "PROFILE"),
     ("EntityType", .S "Employee"),
     ("EmployeeId", .N (toString e.employeeId)),
     ("FirstName", .S e.firstName),
     ("LastName", .S e.lastName),
     ("Title", .S e.title),
     ("CustomerCount", .N (toString e.customerCount))]
    [("ReportsTo", (e.reportsTo.filter (· ≠ 0)).map (fun n => .N (toString n))),
     ("ManagerName",
       (if (e.reportsTo.filter (· ≠ 0)).isSome then
          match e.managerFirstName, e.managerLastName with
          | some f, some l => some (.S (f ++ " " ++ l))
          | _, _ => none
        else none)),
     ("BirthDate", e.birthDate.map .S),
     ("HireDate", e.hireDate.map .S),
     ("Address", e.address.map .S),
     ("City", e.city.map .S),
     ("State", e.state.map .S),
     ("Country", e.country.map .S),
     ("PostalCode", e.postalCode.map .S),
     ("Phone", e.phone.map .S),
     ("Fax", e.fax.map .S),
     ("Email", e.email.map .S)]

/-- The employee query (`GROUP BY e.EmployeeId ORDER BY e.EmployeeId`, no
`WHERE`). -/
def employeesQuery (rows : List EmployeeRow) : List EmployeeRow :=
  sortByKey (·.employeeId) rows

/-- Net items written by `_migrate_employee_data` (lines 585–625) when every
batch write succeeds. -/
def migrate_employee_data (rows : List EmployeeRow) : List Item :=
  (employeesQuery rows).map transform_employee

/-! ## `MigrationEngine.run_migration` — the table loop (lines 59–133)

Per-table migration results are abstracted as `outcome : String → Bool`
(the return value of `_migrate_table`) and `completedAlready : String → Bool`
(`state_manager.is_table_completed`).  The observables are the in-memory
`migration_data` statuses and errors (`_log_error` attaches the table name),
the list of tables for which `_migrate_table` was actually invoked, the
persisted overall status, and the boolean return. -/

/-- The fixed migration order (line 72–74). -/
def tables_to_migrate : List String :=
  ["MusicCatalog", "CustomerOrders", "Playlists", "EmployeeManagement"]

/-- Observable trace of one `run_migration` call. -/
structure RunLog where
  tableStatus : List (String × String)
  errors : List ErrorEntry
  attempted : List String
  persistedStatus : String
  returned : Bool
deriving Repr, DecidableEq

/-- `migration_data['tables'][t]['status'] = s`. -/
def setStatus (l : List (String × String)) (t s : String) : List (String × String) :=
  l.map (fun kv => if kv.fst == t then (kv.fst, s) else kv)

/-- `migration_data['tables'][t]['status']`. -/
def statusOf (log : RunLog) (t : String) : Option String :=
  (log.tableStatus.find? (fun kv => kv.fst == t)).map (·.snd)

/-- The `for table_name in tables_to_migrate` loop (lines 87–107): skip tables
already completed; otherwise mark in-progress, run `_migrate_table`, and on
failure log the error with the table name, persist status `failed` via
`fail_migration`, and return `False` — the remaining tables are never
reached.  An exhausted list falls through to `complete_migration` (line 110). -/
def run_tables (outcome completedAlready : String → Bool) (ts : String) :
    List String → RunLog → RunLog
  | [], log => { log with persistedStatus := "completed", returned := true }
  | t :: rest, log =>
    if completedAlready t then
      run_tables outcome completedAlready ts rest
        { log with tableStatus := setStatus log.tableStatus t "completed" }
    else
      let log' := { log with
        tableStatus := setStatus log.tableStatus t "in_progress",
        attempted := log.attempted ++ [t] }
      if outcome t then
        run_tables outcome completedAlready ts rest
          { log' with tableStatus := setStatus log'.tableStatus t "completed" }
      else
        { log' with
          tableStatus := setStatus log'.tableStatus t "failed",
          errors := log'.errors ++
            [{ timestamp := ts, message := "Failed to migrate " ++ t, table := some t }],
          persistedStatus := "failed",
          returned := false }

/-- `run_migration` without a `--table` restriction: `start_migration` sets the
persisted status to `in_progress`, every table starts `not_started` in
`migration_data` (lines 77–84), then the loop runs. -/
def run_migration (outcome completedAlready : String → Bool) (ts : String) : RunLog :=
  run_tables outcome completedAlready ts tables_to_migrate
    { tableStatus := tables_to_migrate.map (fun t => (t, "not_started")),
      errors := [], attempted := [],
      persistedStatus := "in_progress", returned := true }

/-! ## Validator (lines 627–677) -/

/-- The relational source, one list per SQLite table the engine reads.  Join
rows are pre-joined under foreign-key integrity (every `Album.ArtistId`,
`Track.AlbumId`, `Invoice.CustomerId` resolves), under which the aggregated
query returns exactly one row per base-table row. -/
structure SourceDB where
  artists : List ArtistRow
  albums : List AlbumRow
  tracks : List TrackRow
  customers : List CustomerSrc
  playlists : List PlaylistData
  employees : List EmployeeRow
deriving Repr

/-- `SELECT COUNT(*) FROM Invoice`: under FK integrity, every invoice is
grouped under its customer. -/
def invoiceCount (db : SourceDB) : Nat :=
  (db.customers.map (·.orders.length)).sum

/-- `_get_music_catalog_counts` (lines 627–633). -/
def music_catalog_counts (db : SourceDB) : Nat × Nat × Nat :=
  (db.artists.length, db.albums.length, db.tracks.length)

/-- The `total_records` seeded by `start_table_migration` for each logical
table (`_migrate_music_catalog` line 208, `_migrate_customer_orders` lines
415–417, `_migrate_playlists` line 514, `_migrate_employee_management` line
580). -/
def seedTotalRecords (db : SourceDB) : String → Nat
  | "MusicCatalog" =>
    let c := music_catalog_counts db
    c.fst + c.snd.fst + c.snd.snd
  | "CustomerOrders" => db.customers.length + invoiceCount db
  | "Playlists" => db.playlists.length
  | "EmployeeManagement" => db.employees.length
  | _ => 0

/-- `_get_source_count_for_table` (lines 663–677): the validator's per-table
source aggregation. -/
def get_source_count_for_table (db : SourceDB) : String → Nat
  | "MusicCatalog" =>
    let c := music_catalog_counts db
    c.fst + c.snd.fst + c.snd.snd
  | "CustomerOrders" => db.customers.length + invoiceCount db
  | "Playlists" => db.playlists.length
  | "EmployeeManagement" => db.employees.length
  | _ => 0

/-- Net items a full successful run writes into each logical table's physical
store (every batch write acknowledged, fresh cursors). -/
def migratedItems (pyFloatSum : List String → String) (db : SourceDB) :
    String → List Item
  | "MusicCatalog" =>
    (artistsQuery db.artists none).map transform_artist
      ++ (albumsQuery db.albums none).map transform_album
      ++ (tracksQuery db.tracks none).map transform_track
  | "CustomerOrders" => migrate_customers_with_orders pyFloatSum db.customers
  | "Playlists" => migrate_playlist_data db.playlists
  | "EmployeeManagement" => migrate_employee_data db.employees
  | _ => []

/-- A target item's two-part identity. -/
def itemKey (it : Item) : Option String × Option String :=
  (getS it "PK", getS it "SK")

/-- `get_table_item_count` on the store left by the run: writes are per-key
upserts, so the item count is the number of distinct keys written. -/
def targetItemCount (items : List Item) : Nat :=
  ((items.map itemKey).dedup).length

/-- One row of `validate_migration`'s result (lines 640–661). -/
structure ValidationRow where
  source_count : Nat
  target_count : Nat
  count_match : Bool
deriving Repr, DecidableEq

/-- `MigrationEngine.validate_migration` against the post-run store. -/
def validate_migration (pyFloatSum : List String → String) (db : SourceDB) :
    List (String × ValidationRow) :=
  tables_to_migrate.map (fun t =>
    let s := get_source_count_for_table db t
    let g := targetItemCount (migratedItems pyFloatSum db t)
    (t, { source_count := s, target_count := g, count_match := s == g }))

/-! ## Monetary conversion provenance (`data_transformers.py`)

The exact chain of Python numeric operations each monetary attribute applies
to its source value(s), transcribed from the transformer bodies.  A value
"passes through binary floating point" when a `float(…)` call or a `sum` over
floats occurs on the way from the source read to `Decimal`. -/

/-- Symbolic Python numeric expression. -/
inductive PyNumExpr where
  | src : String → PyNumExpr                  -- a value read from a source row
  | pyFloatOf : PyNumExpr → PyNumExpr         -- `float(x)`
  | pyFloatSum : List PyNumExpr → PyNumExpr   -- `sum(…)` (int 0 when empty)
  | decimalOfStr : PyNumExpr → PyNumExpr      -- `Decimal(str(x))`
deriving Repr

/-- Whether the expression's value is, or was computed from, a Python binary
float produced *after* the source read (`sum([])` is the int `0`). -/
def passesThroughFloat : PyNumExpr → Bool
  | .src _ => false
  | .pyFloatOf _ => true
  | .pyFloatSum [] => false
  | .pyFloatSum (e :: l) => passesThroughFloat e || passesThroughFloat (.pyFloatSum l)
  | .decimalOfStr e => passesThroughFloat e

/-- Track `UnitPrice`: `Decimal(str(track_data['UnitPrice']))` (line 54). -/
def trackUnitPriceExpr : PyNumExpr :=
  .decimalOfStr (.src "Track.UnitPrice")

/-- Order `Total`: `Decimal(str(invoice_data['Total']))` (line 144). -/
def orderTotalExpr : PyNumExpr :=
  .decimalOfStr (.src "Invoice.Total")

/-- Embedded line-item `UnitPrice`: `Decimal(str(line_item['UnitPrice']))`
(line 172). -/
def lineItemUnitPriceExpr : PyNumExpr :=
  .decimalOfStr (.src "InvoiceLine.UnitPrice")

/-- Python truthiness of the numeric source value whose decimal literal is
`s`: falsy exactly when the value is absent or zero (`None`, `0`, `0.0`) —
the literal carries no nonzero digit. -/
def pyTruthyNum (s : String) : Bool :=
  s.data.any (fun c => c.isDigit && c != '0')

/-- Customer `TotalSpent` over the named order totals:
`Decimal(str(sum(float(order['invoice_data']['Total']) for order in … if
order['invoice_data'].get('Total'))))` (lines 124–129).  The generator's
`if …get('Total')` truthiness filter drops falsy (zero/absent) totals before
any `float(…)` is applied. -/
def totalSpentExpr (orderTotals : List String) : PyNumExpr :=
  .decimalOfStr (.pyFloatSum
    ((orderTotals.filter pyTruthyNum).map (fun t => .pyFloatOf (.src t))))

/-! ## Remaining definitions used by the statements -/

/-- `MigrationState.get_last_processed_id` (lines 172–179). -/
def get_last_processed_id (f : FileContent) (table : String)
    (entity : Option String) : Option Nat :=
  match ((get_state f).tables.find? (fun kv => kv.fst == table)) with
  | none => none
  | some kv =>
    match entity, kv.snd.entities with
    | some e, some ents => ((ents.find? (fun x => x.fst == e)).bind (·.snd.last_id))
    | _, _ => kv.snd.last_processed_id

/-- The chain of requests the retry loop sends for one chunk: after the first,
each request is exactly the unprocessed subset the oracle reported for the
previous one (attempt numbers counting up from `k`). -/
inductive RetryChain (oracle : Nat → List Item → List Item) :
    Nat → List (List Item) → Prop where
  | nil : ∀ k, RetryChain oracle k []
  | single : ∀ k r, RetryChain oracle k [r]
  | cons : ∀ k r₁ r₂ rs, r₂ = oracle k r₁ →
      RetryChain oracle (k + 1) (r₂ :: rs) → RetryChain oracle k (r₁ :: r₂ :: rs)

/-- `n` backoff delays starting after attempt `k`: `2^(k+1), 2^(k+2), …`. -/
def expSleeps (k : Nat) : Nat → List Nat
  | 0 => []
  | n + 1 => 2 ^ (k + 1) :: expSleeps (k + 1) n

/-- Three artists with ids 1–3 (the §8 scenario source). -/
def demoArtists : List ArtistRow :=
  [{ artistId := 1, name := "AC/DC", albumCount := 0, trackCount := 0 },
   { artistId := 2, name := "Accept", albumCount := 0, trackCount := 0 },
   { artistId := 3, name := "Aerosmith", albumCount := 0, trackCount := 0 }]

/-- The artists entity record right after `start_table_migration` +
`update_entity_progress(total=3)` on a fresh state. -/
def demoArtistsStart : EntityProgress :=
  { total := 3, migrated := 0, last_id := none }

/-- Three playlists with ids 1–3. -/
def demoPlaylists : List PlaylistData :=
  [{ playlistId := 1, playlistName := "Music", tracks := [] },
   { playlistId := 2, playlistName := "Movies", tracks := [] },
   { playlistId := 3, playlistName := "TV Shows", tracks := [] }]

/-- A persisted state mid-run whose `Playlists` table carries the cursor 2. -/
def stateWithPlaylistCursor : MState :=
  { default_state with
    status := "in_progress",
    tables := default_state.tables.map (fun kv =>
      if kv.fst == "Playlists" then
        (kv.fst, { kv.snd with status := "in_progress", last_processed_id := some 2 })
      else kv) }

/-- An order with 51 line items — one past the embedding threshold. -/
def demoOrder51 : OrderData :=
  { invoice_data :=
      { invoiceId := 1, invoiceDate := "2024-01-01", total := "50.49",
        billingAddress := none, billingCity := none, billingState := none,
        billingCountry := none, billingPostalCode := none },
    line_items := (List.range 51).map (fun i =>
      { invoiceLineId := i + 1, trackId := i + 1, unitPrice := "0.99",
        quantity := 1, trackName := none, artistName := none, albumTitle := none }) }

/-- An always-unprocessed store response, for exercising the retry ceiling. -/
def stuckOracle : Nat → List Item → List Item :=
  fun _ _ => [[("PK", .S "X"), ("SK", .S "Y")]]

/-- `stuckOracle` with the chunk index `batch_write_items` passes first. -/
def stuckChunkOracle : Nat → Nat → List Item → List Item :=
  fun _ => stuckOracle

/-- A one-item chunk for the retry-ceiling witness. -/
def demoChunk : List Item :=
  [[("PK", .S "ARTIST#1"), ("SK", .S "METADATA")]]

/-- A one-invoice order with no line items, for the tiny source below. -/
def demoOrder1 : OrderData :=
  { invoice_data :=
      { invoiceId := 1, invoiceDate := "2024-01-01", total := "0.99",
        billingAddress := none, billingCity := none, billingState := none,
        billingCountry := none, billingPostalCode := none },
    line_items := [] }

/-- A tiny relational source: one row in every base table. -/
def demoDB : SourceDB :=
  { artists := [{ artistId := 1, name := "A", albumCount := 1, trackCount := 1 }],
    albums := [{ albumId := 1, title := "Al", artistId := 1, artistName := "A",
                 trackCount := 1 }],
    tracks := [{ trackId := 1, name := "T", albumId := 1, mediaTypeId := some 1,
                 genreId := some 1, composer := none, milliseconds := some 100,
                 bytes := some 1000, unitPrice := "0.99", albumTitle := "Al",
                 artistId := 1, artistName := "A", genreName := some "Rock",
                 mediaTypeName := some "MPEG" }],
    customers := [{ customerId := 1, firstName := "F", lastName := "L",
                    email := "f@l", country := "C", city := "Ci",
                    company := none, address := none, state := none,
                    postalCode := none, phone := none, fax := none,
                    supportRepId := none, repFirstName := none,
                    repLastName := none,
                    orders := [demoOrder1] }],
    playlists := [{ playlistId := 1, playlistName := "P", tracks := [] }],
    employees := [{ employeeId := 1, lastName := "L", firstName := "F",
                    title := "Mgr", reportsTo := none, birthDate := none,
                    hireDate := none, address := none, city := none,
                    state := none, country := none, postalCode := none,
                    phone := none, fax := none, email := none,
                    managerFirstName := none, managerLastName := none,
                    customerCount := 1 }] }

/-- Order totals appearing as literal strings, for the provenance witness. -/
def demoTotals : List String := ["0.99", "1.98"]

end Migration

namespace Migration

/-! ## Helper lemmas -/

theorem mem_insertByKey {key : α → Nat} {a b : α} {l : List α} :
    b ∈ insertByKey key a l ↔ b = a ∨ b ∈ l := by
  induction l with
  | nil => simp [insertByKey]
  | cons c l ih =>
    simp only [insertByKey]
    split
    · simp
    · simp only [List.mem_cons, ih]
      tauto

theorem mem_sortByKey {key : α → Nat} {a : α} {l : List α} :
    a ∈ sortByKey key l ↔ a ∈ l := by
  induction l with
  | nil => simp [sortByKey]
  | cons c l ih => simp [sortByKey, mem_insertByKey, ih]

theorem pairwise_insertByKey {key : α → Nat} {a : α} {l : List α}
    (h : l.Pairwise (fun x y => key x ≤ key y)) :
    (insertByKey key a l).Pairwise (fun x y => key x ≤ key y) := by
  induction l with
  | nil => simp [insertByKey]
  | cons c l ih =>
    rcases List.pairwise_cons.mp h with ⟨hc, hl⟩
    simp only [insertByKey]
    split
    · rename_i hac
      refine List.pairwise_cons.mpr ⟨fun b hb => ?_, h⟩
      rcases List.mem_cons.mp hb with rfl | hb
      · exact hac
      · exact le_trans hac (hc b hb)
    · rename_i hac
      push_neg at hac
      refine List.pairwise_cons.mpr ⟨fun b hb => ?_, ih hl⟩
      rcases mem_insertByKey.mp hb with rfl | hb
      · exact le_of_lt hac
      · exact hc b hb

theorem pairwise_sortByKey {key : α → Nat} {l : List α} :
    (sortByKey key l).Pairwise (fun x y => key x ≤ key y) := by
  induction l with
  | nil => simp [sortByKey]
  | cons c l ih => exact pairwise_insertByKey ih

theorem perm_insertByKey {key : α → Nat} {a : α} {l : List α} :
    (insertByKey key a l).Perm (a :: l) := by
  induction l with
  | nil => simp [insertByKey]
  | cons c l ih =>
    simp only [insertByKey]
    split
    · exact List.Perm.refl _
    · exact (ih.cons c).trans (List.Perm.swap a c l)

theorem perm_sortByKey {key : α → Nat} {l : List α} :
    (sortByKey key l).Perm l := by
  induction l with
  | nil => simp [sortByKey]
  | cons c l ih => exact perm_insertByKey.trans (ih.cons c)

theorem length_sortByKey {key : α → Nat} {l : List α} :
    (sortByKey key l).length = l.length :=
  perm_sortByKey.length_eq

/-- Membership characterisation of the shared cursor query, cursor present and
nonzero. -/
theorem mem_cursorQuery {key : α → Nat} {rows : List α} {c : Nat} (hc : c ≠ 0)
    {r : α} : r ∈ cursorQuery key rows (some c) ↔ r ∈ rows ∧ c < key r := by
  simp [cursorQuery, hc, mem_sortByKey, List.mem_filter]

/-- The cursor query returns rows in ascending key order. -/
theorem sorted_cursorQuery {key : α → Nat} {rows : List α}
    {lastId : Option Nat} :
    (cursorQuery key rows lastId).Pairwise (fun x y => key x ≤ key y) := by
  unfold cursorQuery
  exact pairwise_sortByKey

/-- A cursorless query (`None`) is the full row set, sorted. -/
theorem cursorQuery_none {key : α → Nat} {rows : List α} :
    cursorQuery key rows none = sortByKey key rows := rfl

theorem getAttr_append_right {l₁ l₂ : Item} {k : String}
    (h : ∀ kv ∈ l₁, kv.fst ≠ k) :
    getAttr (l₁ ++ l₂) k = getAttr l₂ k := by
  unfold getAttr
  rw [List.find?_append, List.find?_eq_none.mpr]
  · rfl
  · intro kv hkv
    simp [h kv hkv]

/-- Keys appearing in the optional block all come from its declared key list. -/
theorem fst_mem_of_mem_appendOpts_tail {opts : List (String × Option AttrVal)}
    {kv : String × AttrVal}
    (h : kv ∈ opts.filterMap (fun p => p.snd.map (fun v => (p.fst, v)))) :
    kv.fst ∈ opts.map (·.fst) := by
  rcases List.mem_filterMap.mp h with ⟨p, hp, hmap⟩
  rcases Option.map_eq_some'.mp hmap with ⟨v, _, rfl⟩
  exact List.mem_map.mpr ⟨p, hp, rfl⟩

/-- Look past an `appendOpts` block whose base and option keys all differ
from `k`. -/
theorem getAttr_appendOpts_append {base : Item}
    {opts : List (String × Option AttrVal)} {tail : Item} {k : String}
    (hbase : ∀ kv ∈ base, kv.fst ≠ k)
    (hopts : ∀ s ∈ opts.map (·.fst), s ≠ k) :
    getAttr (appendOpts base opts ++ tail) k = getAttr tail k := by
  unfold appendOpts
  rw [List.append_assoc, getAttr_append_right hbase, getAttr_append_right]
  intro kv hkv
  exact hopts kv.fst (fst_mem_of_mem_appendOpts_tail hkv)

/-- `all` over an `appendOpts` block. -/
theorem all_appendOpts {p : String × AttrVal → Bool} {base : Item}
    {opts : List (String × Option AttrVal)}
    (hb : base.all p = true)
    (ho : ∀ kv ∈ opts, ∀ v, kv.snd = some v → p (kv.fst, v) = true) :
    (appendOpts base opts).all p = true := by
  unfold appendOpts
  rw [List.all_append, hb, Bool.true_and, List.all_eq_true]
  intro kv hkv
  rcases List.mem_filterMap.mp hkv with ⟨q, hq, hmap⟩
  rcases Option.map_eq_some'.mp hmap with ⟨v, hv, rfl⟩
  exact ho q hq v hv

theorem getAttr_cons {a : String} {v : AttrVal} {rest : Item} {k : String} :
    getAttr ((a, v) :: rest) k
      = if (a == k) = true then some v else getAttr rest k := by
  by_cases h : (a == k) = true <;>
    simp [getAttr, List.find?_cons, h]

theorem getAttr_append_left {l₁ l₂ : Item} {k : String}
    (h : (getAttr l₁ k).isSome) :
    getAttr (l₁ ++ l₂) k = getAttr l₁ k := by
  unfold getAttr at *
  rw [List.find?_append]
  rcases hf : List.find? (fun kv => kv.fst == k) l₁ with _ | kv
  · rw [hf] at h; simp at h
  · simp [hf]

end Migration

namespace Migration

/-! ## Claim theorems -/

/-- C10: `batch_write_items` on an empty item list returns success at once —
no chunk is formed, no request is sent, no sleep happens. -/
theorem batch_write_empty_is_noop :
    ∀ (oracle : Nat → Nat → List Item → List Item) (max_retries : Nat),
      batch_write_items oracle [] max_retries = .ok []
        ∧ chunksOf 25 ([] : List Item) = [] := by
  intro oracle m
  exact ⟨by simp [batch_write_items], by simp [chunksOf]⟩

/-- C7: `get_state` returns the complete default state both when no state file
exists and when the persisted file is malformed/unreadable (the two caught
exception types); the default has overall status `not_started`, every table
`not_started` with zero counters, `None` cursors and fresh entity records, and
an empty error list.  The embedding is a total function: neither failure case
raises. -/
theorem get_state_defaults :
    get_state .missing = default_state
      ∧ get_state .malformed = default_state
      ∧ default_state.status = "not_started"
      ∧ default_state.errors = []
      ∧ ∀ kv ∈ default_state.tables,
          kv.snd.status = "not_started"
            ∧ kv.snd.total_records = 0
            ∧ kv.snd.records_migrated = 0
            ∧ kv.snd.last_processed_id = none
            ∧ ∀ e ∈ kv.snd.entities.getD [], e.snd = freshEntity := by
  refine ⟨rfl, rfl, rfl, rfl, ?_⟩
  decide

/-- C8: `can_resume` is true exactly when the persisted overall status is
`in_progress` (a missing or malformed file reads back as the default
`not_started`, hence false), and `resume_migration` refuses — without running
any migration — whenever the prior status is `not_started`, `completed` or
`failed`. -/
theorem can_resume_iff_in_progress :
    ∀ s : MState,
      (can_resume (.valid s) = true ↔ s.status = "in_progress")
        ∧ can_resume .missing = false
        ∧ can_resume .malformed = false
        ∧ (s.status = "not_started" ∨ s.status = "completed" ∨ s.status = "failed" →
            resume_migration (.valid s) = .noResume) := by
  intro s
  refine ⟨?_, rfl, rfl, ?_⟩
  · simp [can_resume, get_state]
  · intro h
    have hne : s.status ≠ "in_progress" := by
      rcases h with h | h | h <;> rw [h] <;> decide
    have hcr : can_resume (.valid s) = false := by
      simp [can_resume, get_state, hne]
    simp [resume_migration, hcr]

/-- C8 witness: a fresh default state has status `not_started`, so resume
refuses. -/
theorem can_resume_iff_in_progress_witness :
    resume_migration (.valid default_state) = .noResume :=
  (can_resume_iff_in_progress default_state).2.2.2 (Or.inl rfl)

/-- C5 counterexample: the `TotalSpent` monetary attribute of a customer with
one order (total `0.99`) is computed through `sum(float(…))` — a binary
floating-point value — before its decimal conversion, contradicting the claim
that no monetary field ever passes through binary floating point. -/
theorem totalSpent_passes_through_float :
    passesThroughFloat (totalSpentExpr ["0.99"]) = true := by
  have hf : List.filter pyTruthyNum ["0.99"] = ["0.99"] := by decide
  simp [totalSpentExpr, hf, passesThroughFloat]

/-- C5 (amended): track `UnitPrice`, order `Total` and line-item `UnitPrice`
go `Decimal(str(·))` straight from the source value with no floating-point
operation, but customer `TotalSpent` is a binary floating-point sum of the
order totals before its decimal conversion whenever at least one order has a
truthy (nonzero) `Total` — if every order's `Total` is falsy the generator is
empty, the sum is the integer `0`, and no float is involved. -/
theorem monetary_decimal_conversion :
    passesThroughFloat trackUnitPriceExpr = false
      ∧ passesThroughFloat orderTotalExpr = false
      ∧ passesThroughFloat lineItemUnitPriceExpr = false
      ∧ (∀ totals : List String, totals.filter pyTruthyNum ≠ [] →
          passesThroughFloat (totalSpentExpr totals) = true)
      ∧ (∀ totals : List String, totals.filter pyTruthyNum = [] →
          passesThroughFloat (totalSpentExpr totals) = false) := by
  refine ⟨by simp [trackUnitPriceExpr, passesThroughFloat],
    by simp [orderTotalExpr, passesThroughFloat],
    by simp [lineItemUnitPriceExpr, passesThroughFloat], ?_, ?_⟩
  · intro totals h
    rcases hf : totals.filter pyTruthyNum with _ | ⟨t, ts⟩
    · exact absurd hf h
    · simp [totalSpentExpr, hf, passesThroughFloat]
  · intro totals h
    simp [totalSpentExpr, h, passesThroughFloat]

/-- C5 witness: two concrete nonzero order totals pass the truthiness filter
and force the float summation; a lone zero total does not. -/
theorem monetary_decimal_conversion_witness :
    passesThroughFloat (totalSpentExpr demoTotals) = true
      ∧ passesThroughFloat (totalSpentExpr ["0.0"]) = false :=
  ⟨monetary_decimal_conversion.2.2.2.1 demoTotals (by decide),
   monetary_decimal_conversion.2.2.2.2 ["0.0"] (by decide)⟩

/-- Keys not used by `orderBase` look through it. -/
theorem getAttr_orderBase_append {cid : Nat} {od : OrderData} {tail : Item}
    {k : String}
    (hk : k ∉ ["PK", "SK", "EntityType", "InvoiceId", "InvoiceDate", "Total",
      "LineItemCount", "BillingAddress", "BillingCity", "BillingState",
      "BillingCountry", "BillingPostalCode"]) :
    getAttr (orderBase cid od ++ tail) k = getAttr tail k := by
  simp only [List.mem_cons, List.not_mem_nil, or_false, not_or] at hk
  simp only [orderBase]
  refine getAttr_appendOpts_append ?_ ?_
  · intro kv hkv
    simp only [List.mem_cons, List.not_mem_nil, or_false] at hkv
    rcases hkv with rfl | rfl | rfl | rfl | rfl | rfl | rfl <;>
      simp_all [ne_comm]
  · intro s hs
    simp only [List.map_cons, List.map_nil, List.mem_cons,
      List.not_mem_nil, or_false] at hs
    rcases hs with rfl | rfl | rfl | rfl | rfl <;>
      simp_all [ne_comm]

/-- Keys not used by `playlistBase` look through it. -/
theorem getAttr_playlistBase_append {pd : PlaylistData} {tail : Item}
    {k : String}
    (hk : k ∉ ["PK", "SK", "EntityType", "PlaylistId", "Name", "TrackCount",
      "TotalDuration"]) :
    getAttr (playlistBase pd ++ tail) k = getAttr tail k := by
  simp only [List.mem_cons, List.not_mem_nil, or_false, not_or] at hk
  refine getAttr_append_right ?_
  intro kv hkv
  simp only [playlistBase, List.mem_cons, List.not_mem_nil, or_false] at hkv
  rcases hkv with rfl | rfl | rfl | rfl | rfl | rfl | rfl <;>
    simp_all [ne_comm]

/-- C4 counterexample: an order with 51 line items (threshold 50) omits
`LineItems` but carries no boolean overflow marker at all — no attribute of
the item is a `BOOL` — while the claim requires one; the scalar count is
still stored. -/
theorem order_overflow_has_no_marker :
    hasKey (transform_customer_order 1 demoOrder51) "LineItems" = false
      ∧ (transform_customer_order 1 demoOrder51).all
          (fun kv => !isBoolVal kv.snd) = true
      ∧ getN (transform_customer_order 1 demoOrder51) "LineItemCount"
          = some "51" := by
  decide

/-- C4 (amended): a parent with child count at the threshold embeds the full
child list and one past it omits the list, with the scalar count always equal
to the true child count — but only the playlist item carries the boolean
`LargePlaylist` overflow marker; an overflowing order item has no marker of
any kind. -/
theorem embedding_thresholds :
    ∀ (cid : Nat) (od : OrderData) (pd : PlaylistData),
      hasKey (transform_customer_order cid od) "LineItems"
          = decide (od.line_items.length ≤ 50)
        ∧ getN (transform_customer_order cid od) "LineItemCount"
          = some (toString od.line_items.length)
        ∧ (transform_customer_order cid od).all
            (fun kv => !isBoolVal kv.snd) = true
        ∧ hasKey (transform_playlist pd) "Tracks"
          = decide (pd.tracks.length ≤ 100)
        ∧ getBOOL (transform_playlist pd) "LargePlaylist"
          = (if pd.tracks.length ≤ 100 then none else some true)
        ∧ getN (transform_playlist pd) "TrackCount"
          = some (toString pd.tracks.length) := by
  intro cid od pd
  have hallBase : (orderBase cid od).all (fun kv => !isBoolVal kv.snd) = true := by
    simp only [orderBase]
    refine all_appendOpts ?_ ?_
    · simp [isBoolVal]
    · intro kv hkv v hv
      simp only [List.mem_cons, List.not_mem_nil, or_false] at hkv
      rcases hkv with rfl | rfl | rfl | rfl | rfl <;>
        · rcases Option.map_eq_some'.mp hv with ⟨s, _, rfl⟩
          simp [isBoolVal]
  refine ⟨?_, ?_, ?_, ?_, ?_, ?_⟩
  · by_cases hle : od.line_items.length ≤ 50
    · rw [transform_customer_order, if_pos hle, hasKey,
        getAttr_orderBase_append (by decide)]
      simp [getAttr, List.find?, hle]
    · rw [transform_customer_order, if_neg hle, hasKey,
        ← List.append_nil (orderBase cid od),
        getAttr_orderBase_append (by decide)]
      simp [getAttr, hle]
  · have hcount : getAttr (orderBase cid od) "LineItemCount"
        = some (.N (toString od.line_items.length)) := by
      simp [orderBase, appendOpts, List.cons_append, getAttr_cons]
    by_cases hle : od.line_items.length ≤ 50
    · rw [transform_customer_order, if_pos hle, getN,
        getAttr_append_left (by rw [hcount]; rfl), hcount]
    · rw [transform_customer_order, if_neg hle, getN, hcount]
  · by_cases hle : od.line_items.length ≤ 50
    · rw [transform_customer_order, if_pos hle, List.all_append]
      rw [hallBase]
      simp [isBoolVal]
    · rw [transform_customer_order, if_neg hle]
      exact hallBase
  · by_cases hle : pd.tracks.length ≤ 100
    · rw [transform_playlist, if_pos hle, hasKey,
        getAttr_playlistBase_append (by decide)]
      simp [getAttr, List.find?, hle]
    · rw [transform_playlist, if_neg hle, hasKey,
        getAttr_playlistBase_append (by decide)]
      simp [getAttr, List.find?, hle]
  · by_cases hle : pd.tracks.length ≤ 100
    · rw [transform_playlist, if_pos hle, getBOOL,
        getAttr_playlistBase_append (by decide)]
      simp [getAttr, List.find?, hle]
    · rw [transform_playlist, if_neg hle, getBOOL,
        getAttr_playlistBase_append (by decide)]
      simp [getAttr, List.find?, hle]
  · have hcount : getAttr (playlistBase pd) "TrackCount"
        = some (.N (toString pd.tracks.length)) := by
      simp [playlistBase, getAttr_cons]
    by_cases hle : pd.tracks.length ≤ 100
    · rw [transform_playlist, if_pos hle, getN,
        getAttr_append_left (by rw [hcount]; rfl), hcount]
    · rw [transform_playlist, if_neg hle, getN,
        getAttr_append_left (by rw [hcount]; rfl), hcount]

/-- The retry loop's request list is empty or starts with the initial
request. -/
theorem writeChunkGo_requests_head (oracle : Nat → List Item → List Item) :
    ∀ (fuel k : Nat) (req : List Item),
      (writeChunkGo oracle fuel k req).requests = []
        ∨ ∃ l, (writeChunkGo oracle fuel k req).requests = req :: l := by
  intro fuel k req
  cases fuel with
  | zero => exact Or.inl rfl
  | succ n =>
    rw [writeChunkGo]
    by_cases h : (oracle k req).isEmpty
    · exact Or.inr ⟨[], by simp [h]⟩
    · exact Or.inr ⟨(writeChunkGo oracle n (k + 1) (oracle k req)).requests,
        by simp [h]⟩

/-- Each retry sends exactly the unprocessed subset the store reported for the
previous attempt. -/
theorem writeChunkGo_retryChain (oracle : Nat → List Item → List Item) :
    ∀ (fuel k : Nat) (req : List Item),
      RetryChain oracle k (writeChunkGo oracle fuel k req).requests := by
  intro fuel
  induction fuel with
  | zero => intro k req; exact .nil k
  | succ n ih =>
    intro k req
    rw [writeChunkGo]
    by_cases h : (oracle k req).isEmpty
    · simpa [h] using RetryChain.single k req
    · simp only [h, Bool.false_eq_true, if_false]
      rcases writeChunkGo_requests_head oracle n (k + 1) (oracle k req) with
        hnil | ⟨l, hl⟩
      · simp only [hnil]
        exact .single k req
      · have := ih (k + 1) (oracle k req)
        rw [hl] at this
        simpa [hl] using RetryChain.cons k req (oracle k req) l rfl this

/-- The sleeps of a retry loop run are exponentially spaced from the starting
attempt. -/
theorem writeChunkGo_sleeps (oracle : Nat → List Item → List Item) :
    ∀ (fuel k : Nat) (req : List Item),
      ∃ n, (writeChunkGo oracle fuel k req).sleeps = expSleeps k n := by
  intro fuel
  induction fuel with
  | zero => intro k req; exact ⟨0, rfl⟩
  | succ m ih =>
    intro k req
    rw [writeChunkGo]
    by_cases h : (oracle k req).isEmpty
    · exact ⟨0, by simp [h, expSleeps]⟩
    · rcases ih (k + 1) (oracle k req) with ⟨n, hn⟩
      exact ⟨n + 1, by simp [h, expSleeps, hn]⟩

/-- Consecutive backoff delays double. -/
theorem expSleeps_doubling :
    ∀ (n k : Nat), List.Chain' (fun a b => b = 2 * a) (expSleeps k n) := by
  intro n
  induction n with
  | zero => intro k; simp [expSleeps]
  | succ m ih =>
    intro k
    cases m with
    | zero => simp [expSleeps]
    | succ m' =>
      rw [expSleeps, expSleeps, List.chain'_cons]
      refine ⟨by ring, ?_⟩
      rw [← expSleeps]
      exact ih (k + 1)

/-- A store that always reports leftovers exhausts the ceiling. -/
theorem writeChunkGo_stuck_fails (oracle : Nat → List Item → List Item)
    (hor : ∀ k q, oracle k q ≠ []) :
    ∀ (fuel k : Nat) (req : List Item),
      (writeChunkGo oracle fuel k req).ok = false := by
  intro fuel
  induction fuel with
  | zero => intro k req; rfl
  | succ n ih =>
    intro k req
    rw [writeChunkGo]
    have h : (oracle k req).isEmpty = false := by
      simp [List.isEmpty_iff, hor k req]
    simp [h, ih]

/-- C3: for every chunk retry loop, each retried request is exactly the
unprocessed subset the store reported for the previous attempt (never the
whole chunk re-sent), the backoff delays double per retry, and a store that
still reports unprocessed items when the retry ceiling is reached makes the
whole `batch_write_items` call raise rather than succeed. -/
theorem batch_write_retry_policy :
    ∀ (oracle : Nat → List Item → List Item) (m : Nat) (chunk : List Item),
      RetryChain oracle 0 (writeChunk oracle m chunk).requests
        ∧ List.Chain' (fun a b => b = 2 * a) (writeChunk oracle m chunk).sleeps
        ∧ ((∀ k q, oracle k q ≠ []) → (writeChunk oracle m chunk).ok = false)
        ∧ ∀ (co : Nat → Nat → List Item → List Item) (items : List Item),
            (∀ ci k q, co ci k q ≠ []) → items ≠ [] → 0 < m →
            batch_write_items co items m
              = .error "Max retries exceeded for batch write" := by
  intro oracle m chunk
  refine ⟨writeChunkGo_retryChain oracle m 0 chunk, ?_, ?_, ?_⟩
  · rcases writeChunkGo_sleeps oracle m 0 chunk with ⟨n, hn⟩
    rw [writeChunk, hn]
    exact expSleeps_doubling n 0
  · intro hor
    exact writeChunkGo_stuck_fails oracle hor m 0 chunk
  · intro co items hco hne _
    cases items with
    | nil => exact absurd rfl hne
    | cons a l =>
      have hchunks : chunksOf 25 (a :: l)
          = (a :: l).take 25 :: chunksOf 25 ((a :: l).drop 25) := by
        rw [chunksOf]
        simp
      have hfail : (writeChunk (co 0) m ((a :: l).take 25)).ok = false :=
        writeChunkGo_stuck_fails (co 0) (fun k q => hco 0 k q) m 0 _
      rw [batch_write_items]
      simp only [List.isEmpty_cons, Bool.false_eq_true, if_false, hchunks,
        writeAllChunks, hfail]

/-- C3 witness: a store that always reports one unprocessed item makes the
retry loop fail and the whole call raise at the default ceiling of 3. -/
theorem batch_write_retry_policy_witness :
    (writeChunk stuckOracle 3 demoChunk).ok = false
      ∧ batch_write_items stuckChunkOracle demoChunk 3
          = .error "Max retries exceeded for batch write" :=
  ⟨(batch_write_retry_policy stuckOracle 3 demoChunk).2.2.1
      (fun _ _ => List.cons_ne_nil _ _),
   (batch_write_retry_policy stuckOracle 3 demoChunk).2.2.2 stuckChunkOracle
      demoChunk (fun _ _ _ => List.cons_ne_nil _ _) (List.cons_ne_nil _ _)
      (by decide)⟩

/-- C2: migrating 3 artists (ids 1–3) with batch size 2 in one run writes
batches {1,2} then {3}, persists cursors 2 then 3 with `migrated` 2 then 3,
and ends at `migrated = 3 = total`; after an interruption at the first
persisted snapshot (`migrated = 2`, cursor 2), the resumed run re-queries only
`id > 2` — but the code then *overwrites* `migrated` with its run-local count,
finishing at `migrated = 1`, not the claimed 3. -/
theorem artist_scenario_eval :
    ((migrate_artists 2 demoArtists demoArtistsStart).snd.fst.map
        (fun b => b.map (fun it => getN it "ArtistId"))
        = [[some "1", some "2"], [some "3"]])
      ∧ (migrate_artists 2 demoArtists demoArtistsStart).snd.snd
        = [{ total := 3, migrated := 2, last_id := some 2 },
           { total := 3, migrated := 3, last_id := some 3 }]
      ∧ (migrate_artists 2 demoArtists demoArtistsStart).fst
        = { total := 3, migrated := 3, last_id := some 3 }
      ∧ (artistsQuery demoArtists (some 2)).map (fun r => r.artistId) = [3]
      ∧ (migrate_artists 2 demoArtists
            { total := 3, migrated := 2, last_id := some 2 }).fst
        = { total := 3, migrated := 1, last_id := some 3 } := by
  decide

/-- C1 (amended): within MusicCatalog, each entity query (artists, albums,
tracks) returns exactly the rows with id strictly greater than the nonzero
persisted cursor, in ascending id order — but the CustomerOrders and Playlists
migrations query every source row regardless of any persisted cursor. -/
theorem cursor_query_restriction :
    ∀ (c : Nat), c ≠ 0 →
      ∀ (ar : List ArtistRow) (alb : List AlbumRow) (tr : List TrackRow)
        (cr : List CustomerSrc) (pr : List PlaylistData),
        (∀ r : ArtistRow,
            r ∈ artistsQuery ar (some c) ↔ r ∈ ar ∧ c < r.artistId)
          ∧ (artistsQuery ar (some c)).Pairwise
              (fun x y => x.artistId ≤ y.artistId)
          ∧ (∀ r : AlbumRow,
              r ∈ albumsQuery alb (some c) ↔ r ∈ alb ∧ c < r.albumId)
          ∧ (albumsQuery alb (some c)).Pairwise
              (fun x y => x.albumId ≤ y.albumId)
          ∧ (∀ r : TrackRow,
              r ∈ tracksQuery tr (some c) ↔ r ∈ tr ∧ c < r.trackId)
          ∧ (tracksQuery tr (some c)).Pairwise
              (fun x y => x.trackId ≤ y.trackId)
          ∧ (∀ r : CustomerSrc, r ∈ customersQuery cr ↔ r ∈ cr)
          ∧ (∀ p : PlaylistData, p ∈ playlistsQuery pr ↔ p ∈ pr) := by
  intro c hc ar alb tr cr pr
  exact ⟨fun r => mem_cursorQuery hc, sorted_cursorQuery,
    fun r => mem_cursorQuery hc, sorted_cursorQuery,
    fun r => mem_cursorQuery hc, sorted_cursorQuery,
    fun r => mem_sortByKey, fun p => mem_sortByKey⟩

/-- C1 witness: cursor 2 over the three-artist and three-playlist sources. -/
theorem cursor_query_restriction_witness :
    (∀ r : ArtistRow,
        r ∈ artistsQuery demoArtists (some 2) ↔ r ∈ demoArtists ∧ 2 < r.artistId)
      ∧ (artistsQuery demoArtists (some 2)).Pairwise
          (fun x y => x.artistId ≤ y.artistId)
      ∧ (∀ r : AlbumRow, r ∈ albumsQuery [] (some 2) ↔ r ∈ [] ∧ 2 < r.albumId)
      ∧ (albumsQuery [] (some 2)).Pairwise (fun x y => x.albumId ≤ y.albumId)
      ∧ (∀ r : TrackRow, r ∈ tracksQuery [] (some 2) ↔ r ∈ [] ∧ 2 < r.trackId)
      ∧ (tracksQuery [] (some 2)).Pairwise (fun x y => x.trackId ≤ y.trackId)
      ∧ (∀ r : CustomerSrc, r ∈ customersQuery [] ↔ r ∈ [])
      ∧ (∀ p : PlaylistData, p ∈ playlistsQuery demoPlaylists ↔ p ∈ demoPlaylists) :=
  cursor_query_restriction 2 (by decide) demoArtists [] [] [] demoPlaylists

/-- C1 counterexample: with a persisted `Playlists` cursor of 2, the playlist
migration still queries playlist 1 (id ≤ cursor) and writes its item — the
claimed `id > lastProcessedId` restriction does not hold for this logical
table. -/
theorem playlists_ignore_cursor :
    get_last_processed_id (.valid stateWithPlaylistCursor) "Playlists" none
        = some 2
      ∧ (∃ p, p ∈ playlistsQuery demoPlaylists ∧ p.playlistId ≤ 2)
      ∧ (migrate_playlists (.valid stateWithPlaylistCursor) demoPlaylists).map
            (fun it => getS it "PK")
          = [some "PLAYLIST#1", some "PLAYLIST#2", some "PLAYLIST#3"] := by
  refine ⟨by decide, ⟨{ playlistId := 1, playlistName := "Music", tracks := [] },
    by decide, by decide⟩, by decide⟩

/-- `setStatus` never touches entries for other table names. -/
theorem find?_setStatus_ne {l : List (String × String)} {t s q : String}
    (h : q ≠ t) :
    (setStatus l t s).find? (fun kv => kv.fst == q)
      = l.find? (fun kv => kv.fst == q) := by
  unfold setStatus
  rw [List.find?_map]
  have hp : ((fun kv => kv.fst == q) ∘
        fun kv => if (kv.fst == t) = true then (kv.fst, s) else kv)
      = fun (kv : String × String) => kv.fst == q := by
    funext kv
    simp only [Function.comp]
    split <;> rfl
  rw [hp]
  rcases hf : l.find? (fun kv => kv.fst == q) with _ | kv
  · rw [hf]
    rfl
  · rw [hf]
    have hq : kv.fst = q := by simpa using List.find?_some hf
    simp [hq, h]

/-- Failing at table `t` after a prefix of succeeding/skipped tables: the loop
returns `False`, persists `failed`, appends exactly one error entry (timestamp
+ table name), never invokes `_migrate_table` beyond `pre ∪ {t}`, and leaves
every other table's status untouched. -/
theorem run_tables_fail_aux (outcome completed : String → Bool) (ts t : String)
    (hct : completed t = false) (hot : outcome t = false) :
    ∀ (pre post : List String) (log : RunLog),
      (∀ p ∈ pre, completed p = true ∨ outcome p = true) →
      (run_tables outcome completed ts (pre ++ t :: post) log).returned = false
        ∧ (run_tables outcome completed ts (pre ++ t :: post) log).persistedStatus
            = "failed"
        ∧ (run_tables outcome completed ts (pre ++ t :: post) log).errors
            = log.errors ++
              [{ timestamp := ts, message := "Failed to migrate " ++ t,
                 table := some t }]
        ∧ (∀ q, q ∈ (run_tables outcome completed ts (pre ++ t :: post) log).attempted →
            q ∈ log.attempted ∨ q ∈ pre ∨ q = t)
        ∧ (∀ q, q ≠ t → q ∉ pre →
            (run_tables outcome completed ts (pre ++ t :: post) log).tableStatus.find?
                (fun kv => kv.fst == q)
              = log.tableStatus.find? (fun kv => kv.fst == q)) := by
  intro pre
  induction pre with
  | nil =>
    intro post log hpre
    simp only [List.nil_append, run_tables, hct, hot, Bool.false_eq_true,
      if_false]
    refine ⟨trivial, trivial, trivial, ?_, ?_⟩
    · intro q hq
      simp only [List.mem_append, List.mem_cons, List.not_mem_nil,
        or_false] at hq
      rcases hq with hq | hq
      · exact Or.inl hq
      · exact Or.inr (Or.inr hq)
    · intro q hqt _
      rw [find?_setStatus_ne hqt, find?_setStatus_ne hqt]
  | cons p pre ih =>
    intro post log hpre
    have hp := hpre p (List.mem_cons_self p pre)
    have hpre' : ∀ x ∈ pre, completed x = true ∨ outcome x = true :=
      fun x hx => hpre x (List.mem_cons_of_mem p hx)
    simp only [List.cons_append, run_tables]
    by_cases hcp : completed p = true
    · simp only [hcp, if_true]
      obtain ⟨h1, h2, h3, h4, h5⟩ := ih post
        { log with tableStatus := setStatus log.tableStatus p "completed" } hpre'
      refine ⟨h1, h2, by simpa using h3, ?_, ?_⟩
      · intro q hq
        rcases h4 q hq with h | h | h
        · exact Or.inl h
        · exact Or.inr (Or.inl (List.mem_cons_of_mem p h))
        · exact Or.inr (Or.inr h)
      · intro q hqt hqpre
        simp only [List.mem_cons, not_or] at hqpre
        exact (h5 q hqt hqpre.2).trans (find?_setStatus_ne hqpre.1)
    · have hop : outcome p = true := hp.resolve_left hcp
      simp only [hcp, Bool.false_eq_true, if_false, hop, if_true]
      obtain ⟨h1, h2, h3, h4, h5⟩ := ih post
        { log with
          tableStatus := setStatus (setStatus log.tableStatus p "in_progress")
            p "completed",
          attempted := log.attempted ++ [p] } hpre'
      refine ⟨h1, h2, by simpa using h3, ?_, ?_⟩
      · intro q hq
        rcases h4 q hq with h | h | h
        · simp only [List.mem_append, List.mem_cons, List.not_mem_nil,
            or_false] at h
          rcases h with h | h
          · exact Or.inl h
          · exact Or.inr (Or.inl (h ▸ List.mem_cons_self p pre))
        · exact Or.inr (Or.inl (List.mem_cons_of_mem p h))
        · exact Or.inr (Or.inr h)
      · intro q hqt hqpre
        simp only [List.mem_cons, not_or] at hqpre
        exact (h5 q hqt hqpre.2).trans
          ((find?_setStatus_ne hqpre.1).trans (find?_setStatus_ne hqpre.1))

/-- C6: if migrating a table fails while every earlier table in the fixed
order succeeded or was skipped, `run_migration` records an error entry with
the timestamp and that table's name, persists overall status `failed`,
returns `False`, and neither attempts nor touches any later table — their
statuses remain `not_started`. -/
theorem table_failure_halts_run :
    ∀ (outcome completed : String → Bool) (ts t : String)
      (pre post : List String),
      tables_to_migrate = pre ++ t :: post →
      (∀ p ∈ pre, completed p = true ∨ outcome p = true) →
      completed t = false → outcome t = false →
      (run_migration outcome completed ts).returned = false
        ∧ (run_migration outcome completed ts).persistedStatus = "failed"
        ∧ ({ timestamp := ts, message := "Failed to migrate " ++ t,
              table := some t } : ErrorEntry)
            ∈ (run_migration outcome completed ts).errors
        ∧ ∀ q ∈ post, q ≠ t → q ∉ pre →
            q ∉ (run_migration outcome completed ts).attempted
              ∧ statusOf (run_migration outcome completed ts) q
                  = some "not_started" := by
  intro outcome completed ts t pre post hsplit hpre hct hot
  have haux := run_tables_fail_aux outcome completed ts t hct hot pre post
    { tableStatus := tables_to_migrate.map (fun x => (x, "not_started")),
      errors := [], attempted := [],
      persistedStatus := "in_progress", returned := true } hpre
  obtain ⟨h1, h2, h3, h4, h5⟩ := haux
  rw [← hsplit] at h1 h2 h3 h4 h5
  rw [run_migration]
  refine ⟨h1, h2, by rw [h3]; simp, ?_⟩
  intro q hq hqt hqpre
  constructor
  · intro hmem
    rcases h4 q hmem with h | h | h
    · exact List.not_mem_nil q h
    · exact hqpre h
    · exact hqt h
  · have hq4 : q ∈ tables_to_migrate := by
      rw [hsplit]
      exact List.mem_append_right pre (List.mem_cons_of_mem t hq)
    unfold statusOf
    rw [h5 q hqt hqpre]
    fin_cases hq4 <;> decide

/-- C6 witness: `CustomerOrders` fails after `MusicCatalog` succeeds —
`Playlists` and `EmployeeManagement` are never attempted. -/
theorem table_failure_halts_run_witness :
    (run_migration (fun s => s == "MusicCatalog") (fun _ => false)
        "2024-01-01 00:00:00").returned = false
      ∧ (run_migration (fun s => s == "MusicCatalog") (fun _ => false)
          "2024-01-01 00:00:00").persistedStatus = "failed"
      ∧ ({ timestamp := "2024-01-01 00:00:00",
            message := "Failed to migrate " ++ "CustomerOrders",
            table := some "CustomerOrders" } : ErrorEntry)
          ∈ (run_migration (fun s => s == "MusicCatalog") (fun _ => false)
              "2024-01-01 00:00:00").errors
      ∧ ∀ q ∈ ["Playlists", "EmployeeManagement"], q ≠ "CustomerOrders" →
          q ∉ ["MusicCatalog"] →
          q ∉ (run_migration (fun s => s == "MusicCatalog") (fun _ => false)
              "2024-01-01 00:00:00").attempted
            ∧ statusOf (run_migration (fun s => s == "MusicCatalog")
                (fun _ => false) "2024-01-01 00:00:00") q
                = some "not_started" :=
  table_failure_halts_run (fun s => s == "MusicCatalog") (fun _ => false)
    "2024-01-01 00:00:00" "CustomerOrders" ["MusicCatalog"]
    ["Playlists", "EmployeeManagement"] (by decide)
    (by intro p hp; fin_cases hp; exact Or.inr (by decide)) (by decide)
    (by decide)

/-- Items written per customer: one profile plus one per order. -/
theorem length_flatMap_customerItems (fs : List String → String)
    (l : List CustomerSrc) :
    (l.flatMap (customerItems fs)).length
      = l.length + (l.map (fun c => c.orders.length)).sum := by
  induction l with
  | nil => simp
  | cons c l ih =>
    simp only [List.flatMap_cons, List.length_append, ih, customerItems,
      List.length_cons, List.length_map, List.map_cons, List.sum_cons]
    omega

/-- Sorting the customers does not change the total number of orders. -/
theorem sum_orders_sortByKey (l : List CustomerSrc) :
    ((sortByKey (fun c => c.customerId) l).map (fun c => c.orders.length)).sum
      = (l.map (fun c => c.orders.length)).sum :=
  (perm_sortByKey.map _).sum_eq

/-- The customer/order migration writes `|Customer| + |Invoice|` items. -/
theorem length_migrate_customers (fs : List String → String)
    (cs : List CustomerSrc) :
    (migrate_customers_with_orders fs cs).length
      = cs.length + (cs.map (fun c => c.orders.length)).sum := by
  unfold migrate_customers_with_orders customersQuery
  rw [length_flatMap_customerItems, length_sortByKey, sum_orders_sortByKey]

/-- With pairwise-distinct keys, upsert writes accumulate one stored item per
written item. -/
theorem targetItemCount_of_nodup {items : List Item}
    (h : (items.map itemKey).Nodup) :
    targetItemCount items = items.length := by
  unfold targetItemCount
  rw [List.dedup_eq_self.mpr h, List.length_map]

/-- C9: the validator's per-table `source_count` uses the same aggregation
that seeds `total_records` at table start, its `count_match` is literally
`source_count == target_count`, and after a full successful run writing
distinct-keyed items, every logical table reconciles: `count_match = true`
with `source_count = target_count`. -/
theorem validator_count_reconciliation :
    ∀ (fs : List String → String) (db : SourceDB),
      (∀ t : String, get_source_count_for_table db t = seedTotalRecords db t)
        ∧ (∀ row ∈ validate_migration fs db,
            row.snd.count_match
              = (row.snd.source_count == row.snd.target_count))
        ∧ ((∀ t ∈ tables_to_migrate,
              ((migratedItems fs db t).map itemKey).Nodup) →
            ∀ row ∈ validate_migration fs db,
              row.snd.count_match = true
                ∧ row.snd.source_count = row.snd.target_count) := by
  intro fs db
  refine ⟨fun t => rfl, ?_, ?_⟩
  · intro row hrow
    rcases List.mem_map.mp hrow with ⟨t, _, rfl⟩
    rfl
  · intro hnodup row hrow
    rcases List.mem_map.mp hrow with ⟨t, ht, rfl⟩
    have hlen : targetItemCount (migratedItems fs db t)
        = (migratedItems fs db t).length :=
      targetItemCount_of_nodup (hnodup t ht)
    have hsrc : get_source_count_for_table db t
        = (migratedItems fs db t).length := by
      fin_cases ht <;>
        simp [get_source_count_for_table, migratedItems, music_catalog_counts,
          invoiceCount, artistsQuery, albumsQuery, tracksQuery, cursorQuery,
          playlistsQuery, employeesQuery, migrate_playlist_data,
          migrate_employee_data, length_sortByKey,
          length_migrate_customers] <;>
      omega
    refine ⟨?_, ?_⟩
    · simp only [hsrc, hlen]
      exact Nat.beq_eq_true_eq _ _ ▸ rfl
    · simp only [hsrc, hlen]

/-- C9 witness: the one-row-per-table source reconciles on every logical
table. -/
theorem validator_count_reconciliation_witness :
    ∀ row ∈ validate_migration (fun _ => "0.99") demoDB,
      row.snd.count_match = true
        ∧ row.snd.source_count = row.snd.target_count :=
  (validator_count_reconciliation (fun _ => "0.99") demoDB).2.2 (by decide)

end Migration
